import Mathlib

/-!
# Verification of the Arsenic backup extraction core

Shallow embedding of the photo resolution / extraction / reconciliation
engine of `src/src/parser/backup_parser.py`, together with theorems about
the claims of the specification.

The embedding follows the Python source:

* the taxonomy filter of `parse_backup` (lines 648-651);
* the hashing function `parse_ios_backup.calculate_itunes_photofile_name`
  (lines 1422-1426), with SHA-1 itself modelled from the standard (the
  source delegates to `hashlib.sha1`, an external collaborator);
* the batch extractor `parse_ios_backup.retrieve_photos_from_backup`
  (lines 1428-1469), with the external decrypting reader
  (`Backup.from_path` / `backup.extract_file_id`) abstracted as an oracle
  describing, for each file ID, which outcome the call has;
* the fallback-strategy control flow of `parse_backup` (lines 679-722);
* the reconciliation pass `recovery_status` and its aggregates
  (lines 725-754).

Definitions come first, theorems afterwards.
-/

namespace Arsenic

/-! ## Catalog filter (`parse_backup`, lines 648-651)

A row of the DataFrame returned by `photo_taxonomy`, after
`pd.to_numeric(taxonomyquery['Confidence'], errors='coerce')`: a confidence
value that could not be parsed becomes NaN, modelled here as `none`. -/

structure TaxonomyRecord where
  path : String
  filename : String
  sceneClassification : String
  confidence : Option Int
deriving DecidableEq, Repr

/-- `Confidence > 5` as pandas evaluates it after the `coerce`: a NaN
confidence compares false. -/
def confidenceGtFive : Option Int → Bool
  | none => false
  | some c => 5 < c

/-- The filter
`taxonomyquery[(taxonomyquery['Scene Classification'] == taxonomy_target) & (taxonomyquery['Confidence'] > 5)]`
of `parse_backup` line 650. -/
def photo_filter (records : List TaxonomyRecord) (taxonomy_target : String) :
    List TaxonomyRecord :=
  records.filter
    (fun r => r.sceneClassification == taxonomy_target && confidenceGtFive r.confidence)

/-- The firearm record with confidence 4 of the spec scenario. -/
def firearmConf4 : TaxonomyRecord :=
  { path := "DCIM/100APPLE", filename := "IMG_0001.JPG",
    sceneClassification := "firearm", confidence := some 4 }

/-- The firearm record with confidence 6 of the spec scenario. -/
def firearmConf6 : TaxonomyRecord :=
  { path := "DCIM/100APPLE", filename := "IMG_0002.JPG",
    sceneClassification := "firearm", confidence := some 6 }

/-! ## Batch extraction (`retrieve_photos_from_backup`, lines 1428-1469)

The external decrypting reader is the `Backup` object of the `iosbackup`
collaborator.  `backup.extract_file_id(ID, path=...)` either succeeds,
raises `MissingEntryError`, or raises some other exception; an `IOError`
is one of those other exceptions (in Python, `IOError` is a subclass of
`Exception`, so line 1454's `except Exception` catches it).  The oracle
below records, per file ID, which of these the call would do. -/

inductive ExtractOutcome where
  | success
  | missingEntry
  | ioError
  | otherError
deriving DecidableEq, Repr

/-- The external reader: whether `Backup.from_path` succeeds, and the
outcome of `backup.extract_file_id` for each file ID. -/
structure Backend where
  fromPathOk : Bool
  extract : String → ExtractOutcome

/-- The state the loop of lines 1445-1456 threads: the counters, the
failed-ID list, whether `Backup.from_path` was ever called, and the IDs
whose extraction was actually attempted. -/
structure RetrieveState where
  extracted_count : Nat
  missing_entry_count : Nat
  failed_ids : List String
  backupOpened : Bool
  processed_ids : List String
deriving DecidableEq, Repr

/-- The `for ID in list_of_fileIDs` loop of lines 1445-1456: every
per-item exception is caught inside the loop body (`except
MissingEntryError` first, then the catch-all `except Exception`), so the
loop always advances to the next ID. -/
def retrieveLoop (b : Backend) : List String → RetrieveState → RetrieveState
  | [], st => st
  | id :: rest, st =>
    let st' :=
      match b.extract id with
      | .success =>
          { st with extracted_count := st.extracted_count + 1,
                    processed_ids := st.processed_ids ++ [id] }
      | .missingEntry =>
          { st with missing_entry_count := st.missing_entry_count + 1,
                    failed_ids := st.failed_ids ++ [id],
                    processed_ids := st.processed_ids ++ [id] }
      | _ =>
          { st with failed_ids := st.failed_ids ++ [id],
                    processed_ids := st.processed_ids ++ [id] }
    retrieveLoop b rest st'

/-- `retrieve_photos_from_backup` (lines 1428-1469): returns 0 at once
for an empty ID list (before `Backup.from_path` is called); if
`Backup.from_path` raises, the outer `except` of line 1467 returns 0;
otherwise it runs the loop over every ID and returns the final state,
whose `extracted_count` is the function's return value. -/
def retrieve_photos_from_backup (b : Backend) (list_of_fileIDs : List String) :
    RetrieveState :=
  if list_of_fileIDs.isEmpty then
    { extracted_count := 0, missing_entry_count := 0, failed_ids := [],
      backupOpened := false, processed_ids := [] }
  else if b.fromPathOk then
    retrieveLoop b list_of_fileIDs
      { extracted_count := 0, missing_entry_count := 0, failed_ids := [],
        backupOpened := true, processed_ids := [] }
  else
    { extracted_count := 0, missing_entry_count := 0, failed_ids := [],
      backupOpened := true, processed_ids := [] }

/-- A concrete reader used to instantiate the batch theorems: one ID that
hits an `IOError`, one that hits `MissingEntryError`, one that hits some
other exception, everything else succeeding. -/
def witnessBackend : Backend where
  fromPathOk := true
  extract := fun id =>
    if id = "bad-io" then .ioError
    else if id = "gone" then .missingEntry
    else if id = "weird" then .otherError
    else .success

/-! ## Fallback-strategy control flow (`parse_backup`, lines 667-722)

The standard strategy is the call to `retrieve_photos_from_backup`
(line 669, inside its own `try`).  The later stages at lines 680, 698
and 716 are each gated on the same condition `'extracted_count' in
locals() and extracted_count == 0 and list_of_paths`, where
`extracted_count` is the *standard* strategy's count, never updated
afterwards.  But the names those stages call do not exist anywhere in
the repository: the class `parse_ios_backup` defines no
`extract_photos_direct` (line 685) and no `extract_photos_manifest`
(line 702), and `report_photo_extraction_failure` (line 717) is an
undefined module-level name; all three call sites sit at loop level
with no enclosing `try` (the `try` blocks of lines 647-664 and 667-677
close before line 679).  So the first time the gate is true, the
attribute lookup at line 685 raises an uncaught `AttributeError` and
`parse_backup` aborts: no fallback strategy ever runs, and the failure
report is unreachable (and would itself raise `NameError`). -/

structure PhotoStrategies where
  /-- the `try` of line 667 failed, so `extracted_count` stays unset -/
  standardRaises : Bool
  /-- the value `retrieve_photos_from_backup` returns (line 669) -/
  standardCount : Nat
deriving DecidableEq, Repr

structure PhotoFlowResult where
  standardAttempted : Bool
  /-- a direct-hash extraction call actually executed -/
  directInvoked : Bool
  /-- a manifest-query extraction call actually executed -/
  manifestInvoked : Bool
  /-- the batch-level failure report of line 717 was produced -/
  failureReported : Bool
deriving DecidableEq, Repr

/-- The uncaught exception the gate at line 680 leads to. -/
def attributeErrorMsg : String :=
  "AttributeError: type object 'parse_ios_backup' has no attribute 'extract_photos_direct'"

/-- The control flow of `parse_backup` lines 667-722 for one
`Photos.sqlite` artifact with a taxonomy target: the standard strategy
runs; if its count is zero on a non-empty path list, line 685's lookup
of the nonexistent `extract_photos_direct` raises `AttributeError`,
which nothing catches, aborting the flow; otherwise the flow completes
with no fallback invoked and no failure report. -/
def photo_extraction_flow (s : PhotoStrategies) (list_of_paths : List String) :
    Except String PhotoFlowResult :=
  let extracted_count := if s.standardRaises then 0 else s.standardCount
  let fallbackCond :=
    !s.standardRaises && (extracted_count == 0) && !list_of_paths.isEmpty
  if fallbackCond then
    .error attributeErrorMsg
  else
    .ok { standardAttempted := true, directInvoked := false,
          manifestInvoked := false, failureReported := false }

/-! ## Reconciliation (`parse_backup`, lines 725-754)

`recovered_files = set(os.listdir(photo_output_destination))` is the one
directory listing; `recovery_status` is the row function of lines
730-737 — note that its `except` clause returns the string `"Error"`.
A row is modelled by whether evaluating `row['Filename'] in
recovered_files` raises, and by the filename itself. -/

structure PhotoRecord where
  /-- evaluating `row['Filename'] in recovered_files` does not raise -/
  filenameAccessOk : Bool
  filename : String
deriving DecidableEq, Repr

/-- `recovery_status(row)` of lines 730-737. -/
def recovery_status (recovered_files : List String) (row : PhotoRecord) : String :=
  if row.filenameAccessOk then
    if row.filename ∈ recovered_files then "Recovered" else "Missing"
  else "Error"

/-- The observable outcome of the reconciliation block (lines 725-754):
how many times the output directory was listed, the per-row statuses in
row order, the aggregate counts of lines 743-745, and the full
missing-filename list of line 748. -/
structure ReconcileResult where
  listdir_calls : Nat
  statuses : List String
  recovered_count : Nat
  total_attempted : Nat
  missing_count : Nat
  missing_files : List String
deriving DecidableEq, Repr

/-- The reconciliation pass: one `os.listdir` call builds the snapshot,
`recovery_status` is applied per row, and the aggregates are
`recovered_count` (rows whose status is `"Recovered"`),
`total_attempted = len(filtered_df)` and
`missing_count = total_attempted - recovered_count`; `missing_files`
lists the filenames of the rows whose status is `"Missing"`. -/
def reconcile (dirListing : List String) (records : List PhotoRecord) :
    ReconcileResult :=
  let recovered_files := dirListing
  let statuses := records.map (recovery_status recovered_files)
  let recovered_count := (statuses.filter (fun s => s == "Recovered")).length
  let total := records.length
  { listdir_calls := 1
    statuses := statuses
    recovered_count := recovered_count
    total_attempted := total
    missing_count := total - recovered_count
    missing_files := (records.filter
        (fun r => recovery_status recovered_files r == "Missing")).map (·.filename) }

/-- A row whose status check raises: the input of the C6 counterexample. -/
def errorRecord : PhotoRecord :=
  { filenameAccessOk := false, filename := "IMG_0001.JPG" }

/-- The `missing_list` display string of lines 749-754: the full
comma-joined list when at most 10 files are missing, otherwise the first
10 followed by the `... (and N more)` suffix. -/
def missing_summary (missing_files : List String) : String :=
  if missing_files.length ≤ 10 then String.intercalate ", " missing_files
  else String.intercalate ", " (missing_files.take 10)
    ++ "... (and " ++ toString (missing_files.length - 10) ++ " more)"

/-! ## Content addressing (`calculate_itunes_photofile_name`, lines 1422-1426)

The source builds the literal string `'CameraRollDomain-Media/' +
filepathinbackup`, encodes it as UTF-8 (`errors='strict'`), and returns
`hashlib.sha1(...).hexdigest()`.  `hashlib` is an external collaborator;
SHA-1 below is modelled from the FIPS 180 standard, on bytes as naturals
below 256 and 32-bit words as naturals reduced mod `2 ^ 32`. -/

/-- Left rotation of a 32-bit word. -/
def rotl32 (k n : Nat) : Nat := ((n <<< k) ||| (n >>> (32 - k))) % 2 ^ 32

/-- UTF-8 encoding of one code point, as `str.encode('UTF-8')` does. -/
def utf8EncodeChar (c : Char) : List Nat :=
  let n := c.toNat
  if n < 0x80 then [n]
  else if n < 0x800 then
    [0xC0 ||| (n >>> 6), 0x80 ||| (n &&& 0x3F)]
  else if n < 0x10000 then
    [0xE0 ||| (n >>> 12), 0x80 ||| ((n >>> 6) &&& 0x3F), 0x80 ||| (n &&& 0x3F)]
  else
    [0xF0 ||| (n >>> 18), 0x80 ||| ((n >>> 12) &&& 0x3F),
     0x80 ||| ((n >>> 6) &&& 0x3F), 0x80 ||| (n &&& 0x3F)]

/-- The UTF-8 byte sequence of a string. -/
def utf8Bytes (s : String) : List Nat :=
  (s.data.map utf8EncodeChar).flatten

/-- A 64-bit quantity as 8 big-endian bytes. -/
def bytesOfNat64 (n : Nat) : List Nat :=
  [(n >>> 56) % 256, (n >>> 48) % 256, (n >>> 40) % 256, (n >>> 32) % 256,
   (n >>> 24) % 256, (n >>> 16) % 256, (n >>> 8) % 256, n % 256]

/-- SHA-1 padding: `0x80`, zeros to 56 mod 64, the bit length as 8
big-endian bytes. -/
def sha1Pad (msg : List Nat) : List Nat :=
  let l := msg.length
  let k := (119 - l % 64) % 64
  msg ++ [0x80] ++ List.replicate k 0 ++ bytesOfNat64 (8 * l)

/-- The first `k` big-endian 32-bit words of a byte list. -/
def blockWords : Nat → List Nat → List Nat
  | 0, _ => []
  | Nat.succ k, bytes =>
      (((bytes.getD 0 0 * 256 + bytes.getD 1 0) * 256 + bytes.getD 2 0) * 256
        + bytes.getD 3 0) :: blockWords k (bytes.drop 4)

/-- Extends a 16-word block schedule by `k` words, each the rotation by
one of the XOR of the words 3, 8, 14 and 16 places back. -/
def sha1Extend : Nat → List Nat → List Nat
  | 0, w => w
  | Nat.succ k, w =>
      let t := w.length
      sha1Extend k (w ++ [rotl32 1 (((w.getD (t - 3) 0) ^^^ (w.getD (t - 8) 0))
        ^^^ ((w.getD (t - 14) 0) ^^^ (w.getD (t - 16) 0)))])

/-- The SHA-1 round function for round `t`. -/
def sha1F (t b c d : Nat) : Nat :=
  if t < 20 then (b &&& c) ||| ((b ^^^ 0xFFFFFFFF) &&& d)
  else if t < 40 then (b ^^^ c) ^^^ d
  else if t < 60 then ((b &&& c) ||| (b &&& d)) ||| (c &&& d)
  else (b ^^^ c) ^^^ d

/-- The SHA-1 round constant for round `t`. -/
def sha1K (t : Nat) : Nat :=
  if t < 20 then 0x5A827999 else if t < 40 then 0x6ED9EBA1
  else if t < 60 then 0x8F1BBCDC else 0xCA62C1D6

/-- One SHA-1 round on the five-word working state. -/
def sha1Round (w : List Nat) (st : Nat × Nat × Nat × Nat × Nat) (t : Nat) :
    Nat × Nat × Nat × Nat × Nat :=
  let (a, b, c, d, e) := st
  let temp := (rotl32 5 a + sha1F t b c d + e + sha1K t + w.getD t 0) % 2 ^ 32
  (temp, a, rotl32 30 b, c, d)

/-- Compression of one 64-byte block into the running hash state. -/
def sha1Compress (h : Nat × Nat × Nat × Nat × Nat) (block : List Nat) :
    Nat × Nat × Nat × Nat × Nat :=
  let w := sha1Extend 64 (blockWords 16 block)
  let (a, b, c, d, e) := (List.range 80).foldl (sha1Round w) h
  let (h0, h1, h2, h3, h4) := h
  ((h0 + a) % 2 ^ 32, (h1 + b) % 2 ^ 32, (h2 + c) % 2 ^ 32,
   (h3 + d) % 2 ^ 32, (h4 + e) % 2 ^ 32)

/-- Folds the compression over `k` 64-byte blocks. -/
def sha1Blocks : Nat → List Nat → Nat × Nat × Nat × Nat × Nat →
    Nat × Nat × Nat × Nat × Nat
  | 0, _, h => h
  | Nat.succ k, bytes, h => sha1Blocks k (bytes.drop 64) (sha1Compress h (bytes.take 64))

/-- The five 32-bit result words of SHA-1 over a byte sequence. -/
def sha1Words (msg : List Nat) : Nat × Nat × Nat × Nat × Nat :=
  let padded := sha1Pad msg
  sha1Blocks (padded.length / 64) padded
    (0x67452301, 0xEFCDAB89, 0x98BADCFE, 0x10325476, 0xC3D2E1F0)

/-- The sixteen lowercase hexadecimal digits. -/
def hexCharList : List Char := "0123456789abcdef".data

/-- The lowercase hexadecimal digit of a value below 16. -/
def hexDigit (n : Nat) : Char := hexCharList.getD n '0'

/-- Whether a character is a lowercase hexadecimal digit. -/
def isLowerHexDigit (c : Char) : Bool := hexCharList.contains c

/-- A 32-bit word as 8 lowercase hex characters, most significant first. -/
def wordHex (w : Nat) : List Char :=
  [hexDigit (w / 16 ^ 7 % 16), hexDigit (w / 16 ^ 6 % 16), hexDigit (w / 16 ^ 5 % 16),
   hexDigit (w / 16 ^ 4 % 16), hexDigit (w / 16 ^ 3 % 16), hexDigit (w / 16 ^ 2 % 16),
   hexDigit (w / 16 % 16), hexDigit (w % 16)]

/-- `hashlib.sha1(msg).hexdigest()`: the five result words in lowercase
hex, 40 characters. -/
def sha1Hex (msg : List Nat) : String :=
  let (h0, h1, h2, h3, h4) := sha1Words msg
  String.mk (wordHex h0 ++ wordHex h1 ++ wordHex h2 ++ wordHex h3 ++ wordHex h4)

/-- `calculate_itunes_photofile_name` (lines 1422-1426): the SHA-1 hex
digest of the UTF-8 bytes of the literal concatenation
`'CameraRollDomain-Media/' + filepathinbackup`. -/
def calculate_itunes_photofile_name (filepathinbackup : String) : String :=
  sha1Hex (utf8Bytes ("CameraRollDomain-Media/" ++ filepathinbackup))

end Arsenic

/-! ## Theorems -/

namespace Arsenic

/-- The loop visits every ID: no per-item outcome stops it. -/
lemma retrieveLoop_processed (b : Backend) (ids : List String) (st : RetrieveState) :
    (retrieveLoop b ids st).processed_ids = st.processed_ids ++ ids := by
  induction ids generalizing st with
  | nil => simp [retrieveLoop]
  | cons id rest ih =>
    rcases h : b.extract id with _ | _ | _ | _ <;> simp [retrieveLoop, h, ih]

/-- The returned count is the number of IDs whose extraction succeeds. -/
lemma retrieveLoop_extracted (b : Backend) (ids : List String) (st : RetrieveState) :
    (retrieveLoop b ids st).extracted_count =
      st.extracted_count + (ids.filter (fun i => b.extract i == .success)).length := by
  induction ids generalizing st with
  | nil => simp [retrieveLoop]
  | cons id rest ih =>
    rcases h : b.extract id with _ | _ | _ | _ <;>
      simp [retrieveLoop, h, ih, List.filter_cons, Nat.add_assoc, Nat.add_comm,
        Nat.add_left_comm]

/-- `missing_entry_count` counts exactly the `MissingEntryError` items. -/
lemma retrieveLoop_missing (b : Backend) (ids : List String) (st : RetrieveState) :
    (retrieveLoop b ids st).missing_entry_count =
      st.missing_entry_count + (ids.filter (fun i => b.extract i == .missingEntry)).length := by
  induction ids generalizing st with
  | nil => simp [retrieveLoop]
  | cons id rest ih =>
    rcases h : b.extract id with _ | _ | _ | _ <;>
      simp [retrieveLoop, h, ih, List.filter_cons, Nat.add_assoc, Nat.add_comm,
        Nat.add_left_comm]

/-- `failed_ids` collects every non-successful ID, missing-entry or not. -/
lemma retrieveLoop_failed (b : Backend) (ids : List String) (st : RetrieveState) :
    (retrieveLoop b ids st).failed_ids =
      st.failed_ids ++ ids.filter (fun i => !(b.extract i == .success)) := by
  induction ids generalizing st with
  | nil => simp [retrieveLoop]
  | cons id rest ih =>
    rcases h : b.extract id with _ | _ | _ | _ <;>
      simp [retrieveLoop, h, ih, List.filter_cons]

/-- C8: the catalog filter keeps exactly the records whose scene
classification equals the target and whose confidence is strictly greater
than 5; in particular, of the two scenario records with confidences 4
and 6, only the one with confidence 6 survives. -/
theorem photo_filter_selects_exactly :
    (∀ (records : List TaxonomyRecord) (target : String) (r : TaxonomyRecord),
      r ∈ photo_filter records target ↔
        r ∈ records ∧ r.sceneClassification = target ∧ confidenceGtFive r.confidence = true)
    ∧ photo_filter [firearmConf4, firearmConf6] "firearm" = [firearmConf6] := by
  constructor
  · intro records target r
    simp [photo_filter, List.mem_filter, Bool.and_eq_true, beq_iff_eq]
  · rfl

/-- C2: for a non-empty ID list and a reader that opens, every ID in the
list is processed — a failed item never aborts the batch — and the items
are classified: `MissingEntryError` items are counted in
`missing_entry_count` (and recorded in `failed_ids`), any other
exception puts the item in `failed_ids` only, and `extracted_count`
counts the successes. -/
theorem retrieve_photos_tolerates_item_failures (b : Backend) (ids : List String)
    (hne : ids ≠ []) (hok : b.fromPathOk = true) :
    (retrieve_photos_from_backup b ids).processed_ids = ids ∧
    (retrieve_photos_from_backup b ids).missing_entry_count =
      (ids.filter (fun i => b.extract i == .missingEntry)).length ∧
    (retrieve_photos_from_backup b ids).failed_ids =
      ids.filter (fun i => !(b.extract i == .success)) ∧
    (retrieve_photos_from_backup b ids).extracted_count =
      (ids.filter (fun i => b.extract i == .success)).length := by
  have hemp : ids.isEmpty = false := by
    cases ids with
    | nil => exact absurd rfl hne
    | cons a l => rfl
  simp [retrieve_photos_from_backup, hemp, hok, retrieveLoop_processed,
    retrieveLoop_extracted, retrieveLoop_missing, retrieveLoop_failed]

/-- Witness for C2 at a concrete input: a batch with one missing entry,
one other failure and one success processes all three IDs. -/
theorem retrieve_photos_tolerates_item_failures_witness :
    (retrieve_photos_from_backup witnessBackend ["gone", "weird", "ok"]).processed_ids
        = ["gone", "weird", "ok"] ∧
    (retrieve_photos_from_backup witnessBackend ["gone", "weird", "ok"]).missing_entry_count
        = ((["gone", "weird", "ok"] : List String).filter
            (fun i => witnessBackend.extract i == .missingEntry)).length ∧
    (retrieve_photos_from_backup witnessBackend ["gone", "weird", "ok"]).failed_ids
        = (["gone", "weird", "ok"] : List String).filter
            (fun i => !(witnessBackend.extract i == .success)) ∧
    (retrieve_photos_from_backup witnessBackend ["gone", "weird", "ok"]).extracted_count
        = ((["gone", "weird", "ok"] : List String).filter
            (fun i => witnessBackend.extract i == .success)).length :=
  retrieve_photos_tolerates_item_failures witnessBackend ["gone", "weird", "ok"]
    (by decide) rfl

/-- C4 counterexample: an `IOError` on the first of two IDs does *not*
abort the batch — line 1454's `except Exception` catches `IOError` too —
so the second ID is still processed (and extracted): the result covers
both requested identities, not fewer. -/
theorem retrieve_photos_ioError_continues_counterexample :
    witnessBackend.extract "bad-io" = .ioError ∧
    (retrieve_photos_from_backup witnessBackend ["bad-io", "ok"]).processed_ids
        = ["bad-io", "ok"] ∧
    (retrieve_photos_from_backup witnessBackend ["bad-io", "ok"]).extracted_count = 1 := by
  refine ⟨by decide, by decide, by decide⟩

/-- C4 amended: an `IOError` raised while extracting one item is handled
like any other non-`MissingEntryError` exception — the item is recorded
in `failed_ids` and the batch continues, so every requested ID is still
processed. -/
theorem retrieve_photos_ioError_is_per_item (b : Backend) (ids : List String)
    (i : String) (hok : b.fromPathOk = true) (hmem : i ∈ ids)
    (hio : b.extract i = .ioError) :
    (retrieve_photos_from_backup b ids).processed_ids = ids ∧
    i ∈ (retrieve_photos_from_backup b ids).failed_ids := by
  have hne : ids ≠ [] := by
    intro h; rw [h] at hmem; exact absurd hmem (List.not_mem_nil i)
  obtain ⟨hp, _, hf, _⟩ := retrieve_photos_tolerates_item_failures b ids hne hok
  refine ⟨hp, ?_⟩
  rw [hf]
  exact List.mem_filter.mpr ⟨hmem, by simp [hio]⟩

/-- Witness for the amended C4 at a concrete input. -/
theorem retrieve_photos_ioError_is_per_item_witness :
    (retrieve_photos_from_backup witnessBackend ["bad-io", "ok"]).processed_ids
        = ["bad-io", "ok"] ∧
    "bad-io" ∈ (retrieve_photos_from_backup witnessBackend ["bad-io", "ok"]).failed_ids :=
  retrieve_photos_ioError_is_per_item witnessBackend ["bad-io", "ok"] "bad-io"
    rfl (by decide) (by decide)

/-- C10: the extraction count is a natural number bounded by the number
of requested IDs, and an empty request returns 0 without the backup
container ever being opened (`Backup.from_path` is only reached after
the emptiness check of line 1431). -/
theorem retrieve_photos_count_bounds (b : Backend) (ids : List String) :
    (retrieve_photos_from_backup b ids).extracted_count ≤ ids.length ∧
    (ids = [] →
      (retrieve_photos_from_backup b ids).extracted_count = 0 ∧
      (retrieve_photos_from_backup b ids).backupOpened = false) := by
  constructor
  · cases ids with
    | nil => simp [retrieve_photos_from_backup]
    | cons a l =>
      by_cases hok : b.fromPathOk
      · have hr : retrieve_photos_from_backup b (a :: l) =
            retrieveLoop b (a :: l)
              { extracted_count := 0, missing_entry_count := 0, failed_ids := [],
                backupOpened := true, processed_ids := [] } := by
          simp [retrieve_photos_from_backup, hok]
        rw [hr, retrieveLoop_extracted]
        simpa using List.length_filter_le _ (a :: l)
      · simp [retrieve_photos_from_backup, hok]
  · intro h
    subst h
    simp [retrieve_photos_from_backup]

/-- C1: at the very input where a fallback would be needed — the
standard strategy returns zero extractions on a non-empty request list —
line 685 raises an uncaught `AttributeError`, because
`extract_photos_direct` is defined nowhere in the repository: no
fallback strategy is ever attempted, against both the claim and the
code's own comments and status messages, which announce the direct and
manifest fallbacks.  When the standard strategy extracts at least one
file, the flow completes with no fallback invoked. -/
theorem fallback_chain_attribute_error :
    photo_extraction_flow { standardRaises := false, standardCount := 0 } ["p1"]
      = .error attributeErrorMsg ∧
    photo_extraction_flow { standardRaises := false, standardCount := 7 } ["p1"]
      = .ok { standardAttempted := true, directInvoked := false,
              manifestInvoked := false, failureReported := false } := by
  exact ⟨rfl, rfl⟩

/-- C3: the batch-level failure diagnostic is never surfaced: on the
input satisfying its gate (zero standard extractions, non-empty list)
the flow has already aborted at line 685 with the `AttributeError` —
line 717 is unreachable, and `report_photo_extraction_failure` is
itself an undefined name — and every flow that completes has
`failureReported = false`. -/
theorem failure_report_never_surfaced :
    photo_extraction_flow { standardRaises := false, standardCount := 0 } ["p1"]
      = .error attributeErrorMsg ∧
    (∀ (s : PhotoStrategies) (paths : List String) (r : PhotoFlowResult),
      photo_extraction_flow s paths = .ok r → r.failureReported = false) := by
  refine ⟨rfl, ?_⟩
  intro s paths r h
  simp only [photo_extraction_flow] at h
  split_ifs at h
  all_goals
    first
      | exact Except.noConfusion h
      | (injection h with h'
         subst h'
         rfl)

/-- C5: reconciliation lists the output directory once, marks a row
`"Recovered"` exactly when its filename is accessible and a member of
the snapshot, and the aggregates satisfy `total_attempted` = number of
requested rows, `missing_count = total_attempted - recovered_count`,
with `recovered_count` the number of rows marked `"Recovered"`. -/
theorem reconcile_spec (dir : List String) (records : List PhotoRecord) :
    (reconcile dir records).listdir_calls = 1 ∧
    (reconcile dir records).statuses = records.map (recovery_status dir) ∧
    (∀ r ∈ records, recovery_status dir r = "Recovered" ↔
        r.filenameAccessOk = true ∧ r.filename ∈ dir) ∧
    (reconcile dir records).total_attempted = records.length ∧
    (reconcile dir records).missing_count =
      (reconcile dir records).total_attempted - (reconcile dir records).recovered_count ∧
    (reconcile dir records).recovered_count =
      ((reconcile dir records).statuses.filter (fun s => s == "Recovered")).length := by
  refine ⟨rfl, rfl, ?_, rfl, rfl, rfl⟩
  intro r _
  obtain ⟨ok, name⟩ := r
  cases ok with
  | true =>
    by_cases hmem : name ∈ dir <;> simp [recovery_status, hmem]
  | false => simp [recovery_status]

/-- C6 counterexample: a row whose status check raises is recorded as
`"Error"` (line 737), not as `"Missing"` as the claim states. -/
theorem recovery_status_error_counterexample :
    recovery_status [] errorRecord = "Error" ∧
    (reconcile [] [errorRecord]).statuses = ["Error"] ∧
    recovery_status [] errorRecord ≠ "Missing" := by
  refine ⟨rfl, rfl, by decide⟩

/-- C6 amended: an exception while checking one row is captured as the
status `"Error"` rather than propagated, so the reconciliation pass
always completes, assigning every row exactly one status out of
`"Recovered"`, `"Missing"` and `"Error"`. -/
theorem reconcile_total_and_error_captured (dir : List String)
    (records : List PhotoRecord) :
    (reconcile dir records).statuses.length = records.length ∧
    (∀ s ∈ (reconcile dir records).statuses,
        s = "Recovered" ∨ s = "Missing" ∨ s = "Error") ∧
    (∀ r ∈ records, r.filenameAccessOk = false → recovery_status dir r = "Error") := by
  refine ⟨by simp [reconcile], ?_, ?_⟩
  · intro s hs
    simp only [reconcile, List.mem_map] at hs
    obtain ⟨r, _, rfl⟩ := hs
    obtain ⟨ok, name⟩ := r
    cases ok with
    | true =>
      by_cases hmem : name ∈ dir <;> simp [recovery_status, hmem]
    | false => simp [recovery_status]
  · intro r _ hok
    simp [recovery_status, hok]

/-- C9: with more than 10 missing files the display string is the
comma-join of the first 10 followed by `... (and N more)` with
`N = missing - 10`; with at most 10 it is the comma-join of the full
list with no suffix; in both cases the full list itself is what the
reconciliation result carries (`missing_files`), untruncated. -/
theorem missing_summary_truncation (files : List String) :
    (10 < files.length →
      missing_summary files =
        String.intercalate ", " (files.take 10)
          ++ "... (and " ++ toString (files.length - 10) ++ " more)") ∧
    (files.length ≤ 10 → missing_summary files = String.intercalate ", " files) ∧
    (∀ (dir : List String) (records : List PhotoRecord),
      (reconcile dir records).missing_files =
        (records.filter (fun r => recovery_status dir r == "Missing")).map
          (fun r => r.filename)) := by
  refine ⟨?_, ?_, fun dir records => rfl⟩
  · intro h
    simp [missing_summary, Nat.not_le.mpr h]
  · intro h
    simp [missing_summary, h]

/-- Every hexadecimal digit below 16 renders as a lowercase hex character. -/
lemma hexDigit_lower (m : Nat) (h : m < 16) : isLowerHexDigit (hexDigit m) = true := by
  have hall : ∀ k < 16, isLowerHexDigit (hexDigit k) = true := by decide
  exact hall m h

/-- The hex rendering of a word is 8 lowercase hex characters. -/
lemma wordHex_length_all (w : Nat) :
    (wordHex w).length = 8 ∧ (wordHex w).all isLowerHexDigit = true := by
  have h16 : (0 : Nat) < 16 := by norm_num
  refine ⟨rfl, ?_⟩
  simp only [wordHex, List.all_cons, List.all_nil, Bool.and_eq_true]
  refine ⟨?_, ?_, ?_, ?_, ?_, ?_, ?_, ?_, trivial⟩ <;>
    exact hexDigit_lower _ (Nat.mod_lt _ h16)

/-- A SHA-1 hex digest is 40 characters long, all lowercase hex. -/
lemma sha1Hex_shape (msg : List Nat) :
    (sha1Hex msg).length = 40 ∧ (sha1Hex msg).data.all isLowerHexDigit = true := by
  rcases hval : sha1Words msg with ⟨h0, h1, h2, h3, h4⟩
  have hlen : ∀ w : Nat, (wordHex w).length = 8 := fun w => (wordHex_length_all w).1
  have hhex : ∀ w : Nat, (wordHex w).all isLowerHexDigit = true :=
    fun w => (wordHex_length_all w).2
  constructor
  · show (String.mk _).length = 40
    simp [sha1Hex, hval, String.length, List.length_append, hlen]
  · show (String.mk _).data.all isLowerHexDigit = true
    simp [sha1Hex, hval, List.all_append, hhex]

set_option maxRecDepth 8000 in
/-- The model of the external `hashlib.sha1` agrees with the standard's
test vector for `"abc"`. -/
lemma sha1Hex_abc : sha1Hex (utf8Bytes "abc") = "a9993e364706816aba3e25717850c26c9cd0d89d" := by
  rfl

set_option maxRecDepth 8000 in
/-- The content address of the spec's example path, cross-checked against
`hashlib.sha1` on the literal
`CameraRollDomain-Media/DCIM/100APPLE/IMG_0001.JPG`. -/
lemma calculate_itunes_photofile_name_example :
    calculate_itunes_photofile_name "DCIM/100APPLE/IMG_0001.JPG" =
      "343e26971dfe9c395c425c0ccf799df63ae6261e" := by
  rfl

/-- C7: the content-address function returns exactly the SHA-1 hex
digest of the UTF-8 bytes of the literal concatenation
`"CameraRollDomain-Media/" + relativePath` — no separator normalization
or case folding happens anywhere — and the result is a 40-character
string of lowercase hexadecimal digits.  The function is a pure Lean
function, so it has no side effects, and two calls at equal inputs give
equal outputs. -/
theorem calculate_itunes_photofile_name_spec (p q : String) :
    calculate_itunes_photofile_name p =
      sha1Hex (utf8Bytes ("CameraRollDomain-Media/" ++ p)) ∧
    (calculate_itunes_photofile_name p).length = 40 ∧
    (calculate_itunes_photofile_name p).data.all isLowerHexDigit = true ∧
    (p = q →
      calculate_itunes_photofile_name p = calculate_itunes_photofile_name q) := by
  obtain ⟨hlen, hhex⟩ := sha1Hex_shape (utf8Bytes ("CameraRollDomain-Media/" ++ p))
  exact ⟨rfl, hlen, hhex, fun h => by rw [h]⟩

end Arsenic
